import Mathlib

/-!
Verification development for the dual-backend RAG dashboard frontend.

The embedding below is a shallow translation of the repository's TypeScript
source into Lean:

* `backendApi.ts` (the Backend Client): request encoders `askQuestion` and
  `askModelQuestion`, with JavaScript `||`-defaulting (`jsOr`) and mode-based
  base-address routing (`getBaseUrl`).
* `InteractiveChat.tsx` (the Chat Interaction Controller): `handleSendMessage`
  as a state transformer emitting the list of whole-transcript writes, the
  dispatched HTTP request, and observer notifications; and
  `generateMermaidForChunk` with its local fallback heuristics.
* `EnhancedDashboard.tsx` (the Dashboard Shell / File Inventory Controller):
  `checkLocalFiles`, `handleBackendFilesUploaded`, `handleClearBackendFiles`,
  and the mount-time load of persisted messages and settings (`loadStartup`).

JSON bodies are modelled as association lists of field name / value pairs,
remote calls as `Except` parameters (the outcome the network would deliver),
and `Date.now()` as an explicit `Nat` parameter.
-/

/-! ## JSON values and bodies -/

inductive JsonVal where
  | str (s : String)
  | num (q : ℚ)
  deriving DecidableEq

abbrev JsonBody := List (String × JsonVal)

/-- Field lookup in an encoded JSON body (first occurrence wins, as in a
JavaScript object literal without duplicate keys). -/
def jslookup (body : JsonBody) (k : String) : Option JsonVal :=
  (body.find? (fun p => p.1 == k)).map Prod.snd

/-- JavaScript `x || d` on an optional numeric field: an absent value and the
falsy number `0` both fall back to the default `d`. -/
def jsOr (x : Option ℚ) (d : ℚ) : ℚ :=
  match x with
  | none => d
  | some v => if v = 0 then d else v

/-- JavaScript `s.trim()`: strip leading and trailing whitespace. Defined by
structural recursion over the character list so that concrete instances
evaluate inside the kernel. -/
def jsTrim (s : String) : String :=
  ⟨((s.data.dropWhile Char.isWhitespace).reverse.dropWhile
      Char.isWhitespace).reverse⟩

/-! ## Backend Client (`backendApi.ts`) -/

def API_BASE_URL : String := "http://localhost:8000"

def LOCAL_MODEL_API_BASE_URL : String := "http://localhost:8001"

/-- The two backend modes: `api` is the primary backend (port 8000), `model`
is the local model backend (port 8001). -/
inductive BackendMode where
  | api
  | model
  deriving DecidableEq

/-- `getBaseUrl` from `BackendApiService`. -/
def getBaseUrl : BackendMode → String
  | .api => API_BASE_URL
  | .model => LOCAL_MODEL_API_BASE_URL

structure QueryRequest where
  query : String
  temperature : Option ℚ := none
  top_k : Option ℚ := none
  similarity_threshold : Option ℚ := none
  filter_type : Option String := none
  deriving DecidableEq

structure HttpRequest where
  baseUrl : String
  path : String
  method : String
  body : JsonBody
  deriving DecidableEq

/-- Body built by `askQuestion` for the primary backend: the question text is
sent under `query`; `JSON.stringify` drops the `filter_type` key when the
value is `undefined`. -/
def askQuestionBody (r : QueryRequest) : JsonBody :=
  [("query", JsonVal.str r.query),
   ("temperature", JsonVal.num (jsOr r.temperature 0.2)),
   ("top_k", JsonVal.num (jsOr r.top_k 5)),
   ("similarity_threshold", JsonVal.num (jsOr r.similarity_threshold 0.7))]
  ++ (match r.filter_type with
      | some s => [("filter_type", JsonVal.str s)]
      | none => [])

/-- `askQuestion`: POST to `/ask/` on the primary backend. -/
def askQuestion (r : QueryRequest) : HttpRequest :=
  { baseUrl := getBaseUrl .api
    path := "/ask/"
    method := "POST"
    body := askQuestionBody r }

/-- Body built by `askModelQuestion` for the local model backend: the question
text is sent under `question`, and there is no `filter_type` field. -/
def askModelQuestionBody (r : QueryRequest) : JsonBody :=
  [("question", JsonVal.str r.query),
   ("temperature", JsonVal.num (jsOr r.temperature 0.2)),
   ("top_k", JsonVal.num (jsOr r.top_k 5)),
   ("similarity_threshold", JsonVal.num (jsOr r.similarity_threshold 0.7))]

/-- `askModelQuestion`: POST to `/ask_model` on the local model backend. -/
def askModelQuestion (r : QueryRequest) : HttpRequest :=
  { baseUrl := getBaseUrl .model
    path := "/ask_model"
    method := "POST"
    body := askModelQuestionBody r }

/-! ## Retrieval data model -/

structure CodeChunk where
  content : String
  source : String
  start_line : Nat
  type : String
  distance : Option ℚ := none
  function_name : Option String := none
  class_name : Option String := none
  struct_name : Option String := none
  deriving DecidableEq

structure DebugInfo where
  retrieved_chunk_count : Nat
  query_top_k : ℚ
  query_similarity_threshold : ℚ
  llm_temperature : ℚ
  deriving DecidableEq

structure QueryResponse where
  answer : String
  retrieved_context : List CodeChunk
  debug_info : DebugInfo
  deriving DecidableEq

/-! ## Chat data model (`InteractiveChat.tsx`) -/

inductive MsgType where
  | user
  | bot
  deriving DecidableEq

/-- A transcript entry. `isLoading` is the optional `isLoading?: boolean`
field: absent on user messages, `some true` on a pending assistant
placeholder, `some false` once resolved. `timestamp` is epoch milliseconds. -/
structure ChatMessage where
  id : String
  type : MsgType
  content : String
  timestamp : Nat
  response : Option QueryResponse := none
  isLoading : Option Bool := none
  deriving DecidableEq

structure ChatSettings where
  temperature : ℚ
  top_k : ℚ
  similarity_threshold : ℚ
  deriving DecidableEq

/-- The defaults installed by `EnhancedDashboard`'s `useState` initializer. -/
def defaultChatSettings : ChatSettings :=
  { temperature := 0.2, top_k := 5, similarity_threshold := 0.7 }

/-- The component state `handleSendMessage` reads and writes. -/
structure ChatState where
  messages : List ChatMessage
  inputValue : String
  isLoading : Bool
  hasFiles : Bool
  settings : ChatSettings
  deriving DecidableEq

/-- Everything one call to `handleSendMessage` produces: the final component
state, the sequence of whole-transcript values passed to `setMessages` (in
call order), the HTTP request dispatched through the Backend Client (if any),
and the `onQueryComplete` notifications issued. -/
structure SubmitOutcome where
  state : ChatState
  writes : List (List ChatMessage)
  request : Option HttpRequest
  notifications : List (String × QueryResponse × Nat)
  deriving DecidableEq

/-- The mode dispatch inside `handleSendMessage`: `api` mode calls
`askQuestion`, `model` mode calls `askModelQuestion`, both with the current
settings snapshot. -/
def dispatchAsk (mode : BackendMode) (q : String) (s : ChatSettings) : HttpRequest :=
  match mode with
  | .api => askQuestion
      { query := q
        temperature := some s.temperature
        top_k := some s.top_k
        similarity_threshold := some s.similarity_threshold
        filter_type := none }
  | .model => askModelQuestion
      { query := q
        temperature := some s.temperature
        top_k := some s.top_k
        similarity_threshold := some s.similarity_threshold }

/-- `handleSendMessage`. `now` stands for `Date.now()` at submit time (the
placeholder id is `now + 1`), `resTime` for `new Date()` at resolution time,
`askResult` for the outcome the awaited ask call delivers (`.error` carries
the thrown error's message), and `observerRegistered` for whether an
`onQueryComplete` callback was supplied.  The `catch` block converts a failed
ask into an error-flavoured transcript entry, so the function is total: an
ask failure never escapes to the caller. -/
def handleSendMessage (mode : BackendMode) (observerRegistered : Bool)
    (now resTime : Nat) (askResult : Except String QueryResponse)
    (st : ChatState) : SubmitOutcome :=
  if jsTrim st.inputValue = "" ∨ st.isLoading = true ∨ st.hasFiles = false then
    { state := st, writes := [], request := none, notifications := [] }
  else
    let userMessage : ChatMessage :=
      { id := toString now, type := .user, content := jsTrim st.inputValue
        timestamp := now }
    let botMessage : ChatMessage :=
      { id := toString (now + 1), type := .bot, content := ""
        timestamp := now, isLoading := some true }
    let newMessages := st.messages ++ [userMessage, botMessage]
    let req := dispatchAsk mode userMessage.content st.settings
    match askResult with
    | .ok response =>
        let updatedMessages := newMessages.map (fun msg =>
          if msg.id = botMessage.id then
            { msg with
              content := if response.answer = "" then "No response received"
                         else response.answer
              response := some response
              isLoading := some false }
          else msg)
        { state := { st with messages := updatedMessages, inputValue := ""
                             isLoading := false }
          writes := [newMessages, updatedMessages]
          request := some req
          notifications :=
            if observerRegistered then [(userMessage.content, response, resTime)]
            else [] }
    | .error e =>
        let failedMessages := newMessages.map (fun msg =>
          if msg.id = botMessage.id then
            { msg with content := "Error: " ++ e, isLoading := some false }
          else msg)
        { state := { st with messages := failedMessages, inputValue := ""
                             isLoading := false }
          writes := [newMessages, failedMessages]
          request := some req
          notifications := [] }

/-! ## Chunk diagram generation (`generateMermaidForChunk`) -/

/-- JavaScript truthiness of an optional string field: defined and non-empty. -/
def jsTruthy : Option String → Bool
  | none => false
  | some s => !(s == "")

/-- `pat` occurs as a contiguous run inside the character list (the semantics
of JavaScript `String.prototype.includes`). -/
def charListIncl (pat : List Char) : List Char → Bool
  | [] => pat.isEmpty
  | c :: rest => pat.isPrefixOf (c :: rest) || charListIncl pat rest

/-- JavaScript `s.includes(pat)`. -/
def strIncludes (s pat : String) : Bool :=
  charListIncl pat.data s.data

/-- The flowchart skeleton interpolating the chunk's function name. -/
def flowchartSkeleton (fn : String) : String :=
  "graph TD\n    A[Start " ++ fn ++
  "] --> B\x7bProcess?\x7d\n    B -- Yes --> C[Do Something]\n    C --> D[End]\n    B -- No --> D"

def classDiagramSkeleton : String :=
  "classDiagram\n    class MyClass \x7b\n        + myMethod()\n        - myField\n    \x7d\n    MyClass <|-- AnotherClass\n    MyClass : +memberVariable\n    MyClass : +memberFunction()"

def genericStubDiagram : String :=
  "graph TD\n    A[Code Chunk] --> B[Content Analysis]\n    B --> C[No specific structure found]"

/-- The `else` branch of `generateMermaidForChunk`: the fixed locally
synthesized fallback, keyed on the source's heuristics in source order. -/
def localChunkFallback (chunk : CodeChunk) : String :=
  if jsTruthy chunk.function_name then
    flowchartSkeleton (chunk.function_name.getD "")
  else if chunk.type == "class" || strIncludes chunk.content "class "
          || strIncludes chunk.content "struct " then
    classDiagramSkeleton
  else
    genericStubDiagram

/-- Error-placeholder diagram produced when the `model`-mode backend call
throws (`chunk.function_name || chunk.source` with JS truthiness). -/
def chunkErrorDiagram (chunk : CodeChunk) : String :=
  "graph TD\n    A[Error generating diagram for " ++
  (if jsTruthy chunk.function_name then chunk.function_name.getD ""
   else chunk.source) ++
  "]\n    A --> B[Check console for details]"

/-- `generateMermaidForChunk`. `net` is the outcome the
`generateChunkDiagram` network call would deliver; the returned `Bool`
records whether that network call was issued. Under `api` (primary) mode the
local fallback is returned and no network call happens. -/
def generateMermaidForChunk (mode : BackendMode) (net : Except String String)
    (chunk : CodeChunk) : String × Bool :=
  match mode with
  | .model =>
      (match net with
       | .ok syn => syn
       | .error _ => chunkErrorDiagram chunk, true)
  | .api => (localChunkFallback chunk, false)

/-! ## Dashboard Shell / File Inventory Controller (`EnhancedDashboard.tsx`) -/

structure FileData where
  name : String
  content : String
  type : String
  deriving DecidableEq

/-- The dashboard state the file-inventory and clear operations touch:
the has-files flag, the local file list, the chat transcript, and the
`uploadedFiles` durable-storage mirror (modelled as the decoded list). -/
structure DashState where
  hasBackendFiles : Bool
  localFiles : List FileData
  chatMessages : List ChatMessage
  storedUploadedFiles : Option (List FileData)
  deriving DecidableEq

/-- `checkLocalFiles`: on a successful listing, replace the local list and
flag and sync the durable mirror; on failure, fall back to the durable mirror
if present, else leave state unchanged. -/
def checkLocalFiles (st : DashState)
    (listing : Except String (List FileData)) : DashState :=
  match listing with
  | .ok backendFiles =>
      { st with localFiles := backendFiles
                hasBackendFiles := decide (backendFiles.length > 0)
                storedUploadedFiles := some backendFiles }
  | .error _ =>
      match st.storedUploadedFiles with
      | some parsedFiles =>
          { st with localFiles := parsedFiles
                    hasBackendFiles := decide (parsedFiles.length > 0) }
      | none => st

/-- `handleBackendFilesUploaded`: after the child component uploads, it
re-fetches the listing via `checkLocalFiles` and then sets the has-files flag
to `true` unconditionally. -/
def handleBackendFilesUploaded (st : DashState)
    (listing : Except String (List FileData)) : DashState :=
  let st1 := checkLocalFiles st listing
  { st1 with hasBackendFiles := true }

def clearFailedAlert : String :=
  "Failed to clear files. Please check backend connection."

/-- `handleClearBackendFiles`: on a successful `clearCodebase` call, empty the
flag, the file list, the transcript, and the durable mirror; on failure leave
every piece of state untouched and surface an alert (the returned
`Option String`). -/
def handleClearBackendFiles (st : DashState)
    (clearResult : Except String Unit) : DashState × Option String :=
  match clearResult with
  | .ok _ =>
      ({ hasBackendFiles := false, localFiles := [], chatMessages := []
         storedUploadedFiles := none }, none)
  | .error _ => (st, some clearFailedAlert)

/-- The mount-time load effect of `EnhancedDashboard`. Each persisted entry is
either absent (`none`) or present with its decode outcome; `JSON.parse` of a
malformed entry throws, and the effect body contains no `try`, so a decode
error aborts the whole effect (the messages entry is read first). The result
is the loaded transcript and settings, starting from the initial state of
empty messages and `defaultChatSettings`. -/
def loadStartup (savedMessages : Option (Except Unit (List ChatMessage)))
    (savedSettings : Option (Except Unit ChatSettings)) :
    Except Unit (List ChatMessage × ChatSettings) :=
  match savedMessages with
  | some (.error e) => .error e
  | some (.ok msgs) =>
      match savedSettings with
      | some (.error e) => .error e
      | some (.ok s) => .ok (msgs, s)
      | none => .ok (msgs, defaultChatSettings)
  | none =>
      match savedSettings with
      | some (.error e) => .error e
      | some (.ok s) => .ok ([], s)
      | none => .ok ([], defaultChatSettings)

/-- A sequence of submits, each waiting for the prior resolution: each entry
supplies the typed input, the submit-time and resolution-time clocks, and the
ask outcome. -/
def runSubmits (mode : BackendMode) (obs : Bool) (st : ChatState) :
    List (String × Nat × Nat × Except String QueryResponse) → ChatState
  | [] => st
  | sub :: rest =>
      runSubmits mode obs
        (handleSendMessage mode obs sub.2.1 sub.2.2.1 sub.2.2.2
          { st with inputValue := sub.1 }).state rest

/-- A chunk with a function name, used to instantiate claims about the
primary-mode diagram fallback. -/
def parseInputChunk : CodeChunk :=
  { content := "int parseInput(void) \x7b return 0; \x7d"
    source := "main.c"
    start_line := 1
    type := "code"
    function_name := some "parseInput" }

/-! ## Helper lemmas -/

/-- `jsOr` with a non-zero default never produces zero. -/
lemma jsOr_ne_zero (x : Option ℚ) (d : ℚ) (hd : d ≠ 0) : jsOr x d ≠ 0 := by
  cases x with
  | none => simpa [jsOr] using hd
  | some v =>
      rcases eq_or_ne v 0 with hv | hv
      · simpa [jsOr, hv] using hd
      · simp [jsOr, hv]

lemma some_num_ne_of_ne {a b : ℚ} (h : a ≠ b) :
    (some (JsonVal.num a) : Option JsonVal) ≠ some (JsonVal.num b) := by
  simp [h]

/-- The submit guard fails when the input is non-blank, no exchange is in
flight, and a codebase is loaded. -/
lemma guard_not (st : ChatState) (h1 : jsTrim st.inputValue ≠ "")
    (h2 : st.isLoading = false) (h3 : st.hasFiles = true) :
    ¬(jsTrim st.inputValue = "" ∨ st.isLoading = true ∨ st.hasFiles = false) := by
  push_neg
  exact ⟨h1, by simp [h2], by simp [h3]⟩

/-- A map that only rewrites the entry with id `bid` is the identity on a
list whose ids avoid `bid`. -/
lemma map_if_id_not_mem (bid : String) (f : ChatMessage → ChatMessage) :
    ∀ l : List ChatMessage, bid ∉ l.map (fun m => m.id) →
      (l.map fun m => if m.id = bid then f m else m) = l := by
  intro l
  induction l with
  | nil => intro _; rfl
  | cons m rest ih =>
      intro h
      have h1 : m.id ≠ bid := fun he => h (by simp [he])
      have h2 : bid ∉ rest.map (fun m => m.id) := fun hh => h (by simp [hh])
      simp [List.map_cons, if_neg h1, ih h2]

/-- Core facts about a guard-passing submit, shared by several claims: the
first transcript write appends the user/placeholder pair in one step, there
are exactly two transcript writes, the final transcript has grown by two, the
in-flight flag is back to `false`, the has-files flag is untouched, and the
dispatched request is the mode-selected ask with the settings snapshot. -/
lemma handleSendMessage_pass (mode : BackendMode) (obs : Bool) (now rt : Nat)
    (res : Except String QueryResponse) (st : ChatState)
    (h1 : jsTrim st.inputValue ≠ "") (h2 : st.isLoading = false)
    (h3 : st.hasFiles = true) :
    (handleSendMessage mode obs now rt res st).writes.head? =
        some (st.messages ++
          [{ id := toString now, type := .user, content := jsTrim st.inputValue
             timestamp := now },
           { id := toString (now + 1), type := .bot, content := ""
             timestamp := now, isLoading := some true }]) ∧
    (handleSendMessage mode obs now rt res st).writes.length = 2 ∧
    (handleSendMessage mode obs now rt res st).state.messages.length
      = st.messages.length + 2 ∧
    (handleSendMessage mode obs now rt res st).state.isLoading = false ∧
    (handleSendMessage mode obs now rt res st).state.hasFiles = st.hasFiles ∧
    (handleSendMessage mode obs now rt res st).request
      = some (dispatchAsk mode (jsTrim st.inputValue) st.settings) := by
  unfold handleSendMessage
  rw [if_neg (guard_not st h1 h2 h3)]
  cases res with
  | ok r => simp
  | error e => simp


/-! ## Claim theorems -/

/-- C1: every ask dispatched under mode=local (`model`) encodes the question
text under the field name `question` (with `temperature`, `top_k`,
`similarity_threshold` alongside) and targets the local backend's
`/ask_model` path, while every ask dispatched under mode=primary (`api`)
encodes it under `query` and targets the primary backend's `/ask/` path: the
asymmetry is reproduced exactly (`question` never appears in a primary body,
`query` never in a local body). -/
theorem c1_mode_field_asymmetry (q : String) (s : ChatSettings) :
    (dispatchAsk .model q s).baseUrl = LOCAL_MODEL_API_BASE_URL ∧
    (dispatchAsk .model q s).path = "/ask_model" ∧
    jslookup (dispatchAsk .model q s).body "question" = some (JsonVal.str q) ∧
    jslookup (dispatchAsk .model q s).body "query" = none ∧
    (jslookup (dispatchAsk .model q s).body "temperature").isSome = true ∧
    (jslookup (dispatchAsk .model q s).body "top_k").isSome = true ∧
    (jslookup (dispatchAsk .model q s).body "similarity_threshold").isSome = true ∧
    (dispatchAsk .api q s).baseUrl = API_BASE_URL ∧
    (dispatchAsk .api q s).path = "/ask/" ∧
    jslookup (dispatchAsk .api q s).body "query" = some (JsonVal.str q) ∧
    jslookup (dispatchAsk .api q s).body "question" = none :=
  ⟨rfl, rfl, rfl, rfl, rfl, rfl, rfl, rfl, rfl, rfl, rfl⟩

/-- C10: in both ask encoders, a supplied zero (or an omitted value) for
temperature, top_k, or similarity_threshold is coalesced to the defaults 0.2,
5, 0.7 respectively by the JavaScript `||` idiom, and consequently a
zero-valued setting can never appear in either encoded body. -/
theorem c10_zero_coalesced_to_defaults (q : String) (ft : Option String)
    (t k sim : Option ℚ) :
    jslookup (askQuestionBody ⟨q, some 0, k, sim, ft⟩) "temperature"
      = some (JsonVal.num 0.2) ∧
    jslookup (askQuestionBody ⟨q, none, k, sim, ft⟩) "temperature"
      = some (JsonVal.num 0.2) ∧
    jslookup (askQuestionBody ⟨q, t, some 0, sim, ft⟩) "top_k"
      = some (JsonVal.num 5) ∧
    jslookup (askQuestionBody ⟨q, t, none, sim, ft⟩) "top_k"
      = some (JsonVal.num 5) ∧
    jslookup (askQuestionBody ⟨q, t, k, some 0, ft⟩) "similarity_threshold"
      = some (JsonVal.num 0.7) ∧
    jslookup (askQuestionBody ⟨q, t, k, none, ft⟩) "similarity_threshold"
      = some (JsonVal.num 0.7) ∧
    jslookup (askModelQuestionBody ⟨q, some 0, k, sim, ft⟩) "temperature"
      = some (JsonVal.num 0.2) ∧
    jslookup (askModelQuestionBody ⟨q, none, k, sim, ft⟩) "temperature"
      = some (JsonVal.num 0.2) ∧
    jslookup (askModelQuestionBody ⟨q, t, some 0, sim, ft⟩) "top_k"
      = some (JsonVal.num 5) ∧
    jslookup (askModelQuestionBody ⟨q, t, none, sim, ft⟩) "top_k"
      = some (JsonVal.num 5) ∧
    jslookup (askModelQuestionBody ⟨q, t, k, some 0, ft⟩) "similarity_threshold"
      = some (JsonVal.num 0.7) ∧
    jslookup (askModelQuestionBody ⟨q, t, k, none, ft⟩) "similarity_threshold"
      = some (JsonVal.num 0.7) ∧
    jslookup (askQuestionBody ⟨q, t, k, sim, ft⟩) "temperature"
      ≠ some (JsonVal.num 0) ∧
    jslookup (askQuestionBody ⟨q, t, k, sim, ft⟩) "top_k"
      ≠ some (JsonVal.num 0) ∧
    jslookup (askQuestionBody ⟨q, t, k, sim, ft⟩) "similarity_threshold"
      ≠ some (JsonVal.num 0) ∧
    jslookup (askModelQuestionBody ⟨q, t, k, sim, ft⟩) "temperature"
      ≠ some (JsonVal.num 0) ∧
    jslookup (askModelQuestionBody ⟨q, t, k, sim, ft⟩) "top_k"
      ≠ some (JsonVal.num 0) ∧
    jslookup (askModelQuestionBody ⟨q, t, k, sim, ft⟩) "similarity_threshold"
      ≠ some (JsonVal.num 0) := by
  refine ⟨rfl, rfl, rfl, rfl, rfl, rfl, rfl, rfl, rfl, rfl, rfl, rfl,
    ?_, ?_, ?_, ?_, ?_, ?_⟩
  · exact some_num_ne_of_ne (jsOr_ne_zero t 0.2 (by norm_num))
  · exact some_num_ne_of_ne (jsOr_ne_zero k 5 (by norm_num))
  · exact some_num_ne_of_ne (jsOr_ne_zero sim 0.7 (by norm_num))
  · exact some_num_ne_of_ne (jsOr_ne_zero t 0.2 (by norm_num))
  · exact some_num_ne_of_ne (jsOr_ne_zero k 5 (by norm_num))
  · exact some_num_ne_of_ne (jsOr_ne_zero sim 0.7 (by norm_num))

/-- C6: the clear operation is atomic with respect to its outcome: on a
successful remote `clearCodebase` the flag, the file list, the durable mirror
and the transcript are all emptied with no alert; on failure every piece of
state is exactly as before and the failure is surfaced as a user alert. -/
theorem c6_clear_atomic (st : DashState) (e : String) :
    handleClearBackendFiles st (.ok ()) =
      ({ hasBackendFiles := false, localFiles := [], chatMessages := []
         storedUploadedFiles := none }, none) ∧
    handleClearBackendFiles st (.error e) = (st, some clearFailedAlert) :=
  ⟨rfl, rfl⟩

/-- C7 counterexample: persisted settings that fail to decode (malformed
JSON) do NOT yield the defaults — the uncaught `JSON.parse` exception aborts
the mount effect, a hard startup failure. -/
theorem c7_counterexample :
    loadStartup none (some (.error ())) = .error () ∧
    loadStartup none (some (.error ()))
      ≠ .ok ([], defaultChatSettings) := by
  refine ⟨rfl, ?_⟩
  intro h
  exact Except.noConfusion h

/-- C7 (amended): absent persisted messages or settings yield the empty
transcript and the defaults {temperature 0.2, topK 5, similarityThreshold
0.7}; but a persisted entry that fails to decode is not caught: the load
aborts with the decode error instead of falling back to defaults. -/
theorem c7_amended_startup_load :
    loadStartup none none = .ok ([], defaultChatSettings) ∧
    (∀ msgs : List ChatMessage,
      loadStartup (some (.ok msgs)) none = .ok (msgs, defaultChatSettings)) ∧
    (∀ s : ChatSettings, loadStartup none (some (.ok s)) = .ok ([], s)) ∧
    (∀ sv, loadStartup (some (.error ())) sv = .error ()) ∧
    (∀ mv, loadStartup mv (some (.error ())) = .error ()) := by
  refine ⟨rfl, fun _ => rfl, fun _ => rfl, fun _ => rfl, ?_⟩
  intro mv
  match mv with
  | none => rfl
  | some (.ok msgs) => rfl
  | some (.error ()) => rfl

/-- C8: under primary (`api`) mode, generating a chunk's structure diagram
makes no network call (second component `false`), is independent of whatever
the network would have answered, never fails (the result is a total plain
string), and follows the source's heuristics: a truthy function name yields
the flowchart skeleton; otherwise a `class` chunk type or a `class `/`struct `
marker in the content yields the class-diagram skeleton; otherwise the
generic stub. -/
theorem c8_primary_fallback (chunk : CodeChunk) (net net2 : Except String String) :
    (generateMermaidForChunk .api net chunk).2 = false ∧
    generateMermaidForChunk .api net chunk
      = generateMermaidForChunk .api net2 chunk ∧
    (jsTruthy chunk.function_name = true →
      (generateMermaidForChunk .api net chunk).1
        = flowchartSkeleton (chunk.function_name.getD "")) ∧
    (jsTruthy chunk.function_name = false →
      (chunk.type == "class" || strIncludes chunk.content "class "
        || strIncludes chunk.content "struct ") = true →
      (generateMermaidForChunk .api net chunk).1 = classDiagramSkeleton) ∧
    (jsTruthy chunk.function_name = false →
      (chunk.type == "class" || strIncludes chunk.content "class "
        || strIncludes chunk.content "struct ") = false →
      (generateMermaidForChunk .api net chunk).1 = genericStubDiagram) := by
  refine ⟨rfl, rfl, ?_, ?_, ?_⟩
  · intro h
    simp [generateMermaidForChunk, localChunkFallback, h]
  · intro h1 h2
    simp [generateMermaidForChunk, localChunkFallback, h1, h2]
  · intro h1 h2
    simp [generateMermaidForChunk, localChunkFallback, h1, h2]

/-- Witness for C8: the chunk with `function_name = "parseInput"` under
primary mode produces the flowchart skeleton with no network call, even
when the (never-issued) network call would have failed. -/
theorem c8_primary_fallback_witness :
    (generateMermaidForChunk .api (Except.error "down") parseInputChunk).1
      = flowchartSkeleton "parseInput" ∧
    (generateMermaidForChunk .api (Except.error "down") parseInputChunk).2
      = false := by
  have h := c8_primary_fallback parseInputChunk (Except.error "down")
    (Except.ok "unused")
  exact ⟨h.2.2.1 rfl, h.1⟩

/-- C9: evaluation at the failing input. Starting from a state with no files
anywhere, a post-upload refresh whose listing comes back empty correctly
computes `hasBackendFiles = false` inside `checkLocalFiles`, yet
`handleBackendFilesUploaded` then overrides the flag to `true`
unconditionally — the flag no longer reflects the server-confirmed (empty)
state. -/
theorem c9_flag_override_eval :
    (checkLocalFiles ⟨false, [], [], none⟩ (.ok [])).hasBackendFiles = false ∧
    handleBackendFilesUploaded ⟨false, [], [], none⟩ (.ok [])
      = ⟨true, [], [], some []⟩ :=
  ⟨rfl, rfl⟩

/-- C2: a guard-passing submit appends the user message and its pending
placeholder as one whole-sequence replacement (the first of exactly two
`setMessages` calls already carries both, with the placeholder created
`pending=true` immediately after its user message), and over any sequence of
submits each waiting for the prior resolution, the transcript grows by
exactly 2 per submit. -/
theorem c2_atomic_pair_and_growth (mode : BackendMode) (obs : Bool) :
    (∀ (now rt : Nat) (res : Except String QueryResponse) (st : ChatState),
      jsTrim st.inputValue ≠ "" → st.isLoading = false → st.hasFiles = true →
      (handleSendMessage mode obs now rt res st).writes.head? =
          some (st.messages ++
            [{ id := toString now, type := .user, content := jsTrim st.inputValue
               timestamp := now },
             { id := toString (now + 1), type := .bot, content := ""
               timestamp := now, isLoading := some true }]) ∧
      (handleSendMessage mode obs now rt res st).writes.length = 2 ∧
      (handleSendMessage mode obs now rt res st).state.messages.length
        = st.messages.length + 2) ∧
    (∀ (st : ChatState)
        (subs : List (String × Nat × Nat × Except String QueryResponse)),
      st.isLoading = false → st.hasFiles = true →
      (∀ sub ∈ subs, jsTrim sub.1 ≠ "") →
      (runSubmits mode obs st subs).messages.length
        = st.messages.length + 2 * subs.length) := by
  constructor
  · intro now rt res st h1 h2 h3
    have h := handleSendMessage_pass mode obs now rt res st h1 h2 h3
    exact ⟨h.1, h.2.1, h.2.2.1⟩
  · intro st subs
    induction subs generalizing st with
    | nil =>
        intro _ _ _
        simp [runSubmits]
    | cons sub rest ih =>
        intro h2 h3 hall
        have hsub : jsTrim sub.1 ≠ "" := hall sub (List.mem_cons_self _ _)
        have hrest : ∀ s ∈ rest, jsTrim s.1 ≠ "" :=
          fun s hs => hall s (List.mem_cons_of_mem _ hs)
        have hp := handleSendMessage_pass mode obs sub.2.1 sub.2.2.1 sub.2.2.2
          { st with inputValue := sub.1 } hsub h2 h3
        have hlen :
            (handleSendMessage mode obs sub.2.1 sub.2.2.1 sub.2.2.2
              { st with inputValue := sub.1 }).state.messages.length
              = st.messages.length + 2 := hp.2.2.1
        have hload :
            (handleSendMessage mode obs sub.2.1 sub.2.2.1 sub.2.2.2
              { st with inputValue := sub.1 }).state.isLoading = false :=
          hp.2.2.2.1
        have hfiles :
            (handleSendMessage mode obs sub.2.1 sub.2.2.1 sub.2.2.2
              { st with inputValue := sub.1 }).state.hasFiles = true :=
          hp.2.2.2.2.1.trans h3
        have hi := ih
          ((handleSendMessage mode obs sub.2.1 sub.2.2.1 sub.2.2.2
            { st with inputValue := sub.1 }).state) hload hfiles hrest
        show (runSubmits mode obs
            ((handleSendMessage mode obs sub.2.1 sub.2.2.1 sub.2.2.2
              { st with inputValue := sub.1 }).state) rest).messages.length
          = st.messages.length + 2 * (rest.length + 1)
        rw [hi, hlen]
        ring

/-- Witness for C2: a concrete two-submit run (one failing, one succeeding)
from an empty transcript ends with exactly four messages, and a concrete
single dispatch writes the user/placeholder pair in its first transcript
write. -/
theorem c2_atomic_pair_and_growth_witness :
    (runSubmits .api true ⟨[], "", false, true, defaultChatSettings⟩
      [("hi", 0, 1, Except.error "boom"),
       ("again", 2, 3,
        Except.ok ⟨"ans", [], ⟨1, 5, 0.7, 0.2⟩⟩)]).messages.length = 4 ∧
    (handleSendMessage .api true 0 1 (Except.error "boom")
      ⟨[], "hi", false, true, defaultChatSettings⟩).writes.length = 2 := by
  have hg := (c2_atomic_pair_and_growth .api true).2
    ⟨[], "", false, true, defaultChatSettings⟩
    [("hi", 0, 1, Except.error "boom"),
     ("again", 2, 3, Except.ok ⟨"ans", [], ⟨1, 5, 0.7, 0.2⟩⟩)]
    rfl rfl (by decide)
  have hs := (c2_atomic_pair_and_growth .api true).1 0 1 (Except.error "boom")
    ⟨[], "hi", false, true, defaultChatSettings⟩ (by decide) rfl rfl
  exact ⟨hg, hs.2.1⟩

/-- C3: a submit with blank input, or while an exchange is in flight, or with
no codebase loaded, is rejected silently: the entire outcome is the unchanged
state with no transcript write, no backend request, and no notification. -/
theorem c3_guard_rejects_silently (mode : BackendMode) (obs : Bool)
    (now rt : Nat) (res : Except String QueryResponse) (st : ChatState)
    (h : jsTrim st.inputValue = "" ∨ st.isLoading = true ∨ st.hasFiles = false) :
    handleSendMessage mode obs now rt res st =
      { state := st, writes := [], request := none, notifications := [] } := by
  unfold handleSendMessage
  rw [if_pos h]

/-- Witness for C3: a submit while an exchange is in flight leaves concrete
state, transcript, settings and input untouched, with no request issued. -/
theorem c3_guard_rejects_silently_witness :
    handleSendMessage .api true 0 1 (Except.error "x")
      ⟨[], "hello", true, true, defaultChatSettings⟩ =
      { state := ⟨[], "hello", true, true, defaultChatSettings⟩, writes := []
        request := none, notifications := [] } :=
  c3_guard_rejects_silently .api true 0 1 (Except.error "x")
    ⟨[], "hello", true, true, defaultChatSettings⟩ (Or.inr (Or.inl rfl))

/-- C4: when the ask call fails, exactly the placeholder assistant message is
replaced (matched by its id — with the placeholder id fresh, every message
with a different id is untouched): its content becomes the human-readable
`Error: ...` summary, its pending flag drops to `false`, it carries no
result, and the prior transcript prefix is preserved verbatim. The embedding
of the controller is a total function, mirroring the `catch` that keeps an
ask failure from propagating to the caller. -/
theorem c4_failure_replaces_placeholder (mode : BackendMode) (obs : Bool)
    (now rt : Nat) (e : String) (st : ChatState)
    (h1 : jsTrim st.inputValue ≠ "") (h2 : st.isLoading = false)
    (h3 : st.hasFiles = true)
    (hfresh : toString (now + 1) ∉ st.messages.map (fun m => m.id))
    (hid : toString now ≠ toString (now + 1)) :
    (handleSendMessage mode obs now rt (.error e) st).state.messages =
      st.messages ++
        [{ id := toString now, type := .user, content := jsTrim st.inputValue
           timestamp := now },
         { id := toString (now + 1), type := .bot
           content := "Error: " ++ e, timestamp := now
           response := none, isLoading := some false }] := by
  unfold handleSendMessage
  rw [if_neg (guard_not st h1 h2 h3)]
  show (st.messages ++
      ([{ id := toString now, type := .user, content := jsTrim st.inputValue
          timestamp := now },
        { id := toString (now + 1), type := .bot, content := ""
          timestamp := now, isLoading := some true }] : List ChatMessage)).map
      (fun msg : ChatMessage => if msg.id = toString (now + 1)
        then { msg with content := "Error: " ++ e, isLoading := some false }
        else msg)
    = _
  rw [List.map_append,
    map_if_id_not_mem (toString (now + 1))
      (fun msg =>
        { msg with content := "Error: " ++ e, isLoading := some false })
      st.messages hfresh]
  simp [hid]

/-- Witness for C4: from an empty transcript, a failed ask yields exactly the
user message followed by the resolved error placeholder. -/
theorem c4_failure_replaces_placeholder_witness :
    (handleSendMessage .api true 0 1 (Except.error "boom")
      ⟨[], "hi", false, true, defaultChatSettings⟩).state.messages =
      [⟨"0", .user, "hi", 0, none, none⟩,
       ⟨"1", .bot, "Error: boom", 0, none, some false⟩] := by
  have h := c4_failure_replaces_placeholder .api true 0 1 "boom"
    ⟨[], "hi", false, true, defaultChatSettings⟩ (by decide) rfl rfl
    (by simp) (by decide)
  exact h

/-- C5 counterexample: a dispatched exchange (request issued) whose ask call
fails produces no observer notification at all, refuting "regardless of
whether the ask call resolves or fails, the external observer callback is
notified". -/
theorem c5_counterexample :
    ((handleSendMessage .api true 0 1 (Except.error "boom")
        ⟨[], "hi", false, true, defaultChatSettings⟩).request).isSome = true ∧
    (handleSendMessage .api true 0 1 (Except.error "boom")
        ⟨[], "hi", false, true, defaultChatSettings⟩).notifications = [] :=
  ⟨rfl, rfl⟩

/-- C5 (amended): the external observer callback is notified — with the
original query text, the response, and the resolution timestamp — exactly
when the ask call resolves successfully and a callback is registered; a
failed ask (which still issues a request) produces no notification. -/
theorem c5_notify_only_on_success (mode : BackendMode) (now rt : Nat)
    (st : ChatState) (h1 : jsTrim st.inputValue ≠ "") (h2 : st.isLoading = false)
    (h3 : st.hasFiles = true) :
    (∀ r : QueryResponse,
      (handleSendMessage mode true now rt (.ok r) st).notifications
        = [(jsTrim st.inputValue, r, rt)]) ∧
    (∀ (obs : Bool) (e : String),
      (handleSendMessage mode obs now rt (.error e) st).notifications = []) ∧
    (∀ e : String,
      ((handleSendMessage mode true now rt (.error e) st).request).isSome
        = true) := by
  refine ⟨?_, ?_, ?_⟩
  · intro r
    unfold handleSendMessage
    rw [if_neg (guard_not st h1 h2 h3)]
    simp
  · intro obs e
    unfold handleSendMessage
    rw [if_neg (guard_not st h1 h2 h3)]
  · intro e
    unfold handleSendMessage
    rw [if_neg (guard_not st h1 h2 h3)]
    rfl

/-- Witness for C5 (amended): a concrete successful exchange notifies the
observer with the query text, the response, and the resolution timestamp. -/
theorem c5_notify_only_on_success_witness :
    (handleSendMessage .api true 0 1
      (Except.ok ⟨"ans", [], ⟨1, 5, 0.7, 0.2⟩⟩)
      ⟨[], "hi", false, true, defaultChatSettings⟩).notifications
      = [("hi", ⟨"ans", [], ⟨1, 5, 0.7, 0.2⟩⟩, 1)] := by
  have h := (c5_notify_only_on_success .api 0 1
    ⟨[], "hi", false, true, defaultChatSettings⟩ (by decide) rfl rfl).1
    ⟨"ans", [], ⟨1, 5, 0.7, 0.2⟩⟩
  exact h
